import Mathlib

/-!
Shallow embedding of the coffee-boy emulator core: the memory bus
(`src/memory.ts`, class `Memory`) and the Sharp LR35902 CPU register file
and stepper (class `SharpLR35902`).

Modelling conventions:
- JavaScript `DataView` regions become a `RegionId`-indexed byte store
  (`Memory.data : RegionId → Nat → Nat`); `view1 === view2` reference
  equality becomes equality of `RegionId` (each branch of `map` returns a
  distinct object in the source, and no bank switching is implemented, so
  object identity coincides with the region identifier).
- `DataView.setUint8` truncates to 8 bits, modelled by `% 256`;
  `getUint16(o, true)` reads bytes `o` and `o+1` little-endian;
  `setUint16(o, v, true)` stores `v & 0xff` at `o` and `(v >>> 8) & 0xff`
  at `o+1`.
- Thrown `Error`s become `Except.error` carrying the message string.
- JS `~C & 0xff` on an 8-bit constant `C` equals `0xff ^^^ C`.
- `romBank1` is a view into the ROM buffer starting at byte `0x4000`, so
  byte `o` of the `workRom1` region is ROM byte `0x4000 + o`.
-/

namespace CoffeeBoy

inductive WriteMode where
  | ReadOnly
  | Writable
deriving DecidableEq, Repr

/-- The ten distinct storage objects `Memory.map` can return in the source:
`workRom0/1` (aliases of `romBank0/1`), the four VRAM views, external RAM,
`workRam0/1` (aliases of `memBank0/1`) and the sprite attribute table. -/
inductive RegionId where
  | workRom0
  | workRom1
  | tiles0
  | tiles1
  | tileMap0
  | tileMap1
  | externalRam
  | workRam0
  | workRam1
  | spriteAttributeTable
deriving DecidableEq, Repr

/-- `Memory.map` from `src/memory.ts`. The bank-selection fields
(`workRom0/1`, `workRam0/1`) are never reassigned after construction, so
the function depends on the address alone. The echo branch recurses, as in
the source. -/
def map (addr : Nat) : Except String (RegionId × Nat × WriteMode) :=
  if 0x0 ≤ addr ∧ addr ≤ 0x3fff then
    .ok (.workRom0, addr, .ReadOnly)
  else if 0x4000 ≤ addr ∧ addr ≤ 0x7fff then
    .ok (.workRom1, addr - 0x4000, .ReadOnly)
  else if 0x8000 ≤ addr ∧ addr ≤ 0x8fff then
    .ok (.tiles0, addr - 0x8000, .Writable)
  else if 0x9000 ≤ addr ∧ addr ≤ 0x97ff then
    .ok (.tiles1, addr - 0x9000, .Writable)
  else if 0x9800 ≤ addr ∧ addr ≤ 0x9bff then
    .ok (.tileMap0, addr - 0x9800, .Writable)
  else if 0x9c00 ≤ addr ∧ addr ≤ 0x9fff then
    .ok (.tileMap1, addr - 0x9c00, .Writable)
  else if 0xa000 ≤ addr ∧ addr ≤ 0xbfff then
    .ok (.externalRam, addr - 0xa000, .Writable)
  else if 0xc000 ≤ addr ∧ addr ≤ 0xcfff then
    .ok (.workRam0, addr - 0xc000, .Writable)
  else if 0xd000 ≤ addr ∧ addr ≤ 0xdfff then
    .ok (.workRam1, addr - 0xd000, .Writable)
  else if h : 0xe000 ≤ addr ∧ addr ≤ 0xfdff then
    map (addr - 0x2000)
  else if 0xfe00 ≤ addr ∧ addr ≤ 0xfe9f then
    .ok (.spriteAttributeTable, addr - 0xfe00, .Writable)
  else if 0xfea0 ≤ addr ∧ addr ≤ 0xfeff then
    .error ("Unhandled (not usable) address " ++ toString addr ++ ".")
  else if 0xff00 ≤ addr ∧ addr ≤ 0xff7f then
    .error ("Unhandled (I/O) address " ++ toString addr ++ ".")
  else if 0xff80 ≤ addr ∧ addr ≤ 0xfffe then
    .error ("Unhandled (HRAM) address " ++ toString addr ++ ".")
  else if addr = 0xffff then
    .error ("Unhandled (Interrupt Enable Register) address " ++ toString addr ++ ".")
  else
    .error ("Attempted to fetch un-mappable address " ++ toString addr ++ " from memory.")
termination_by addr
decreasing_by omega

/-- The mapped memory: one byte store per distinct region object. -/
structure Memory where
  data : RegionId → Nat → Nat

/-- A freshly constructed `Memory`: writable regions are zero-initialised
(`new Uint8Array(...)`), the two ROM regions view the cartridge buffer. -/
def Memory.fresh (rom : Nat → Nat) : Memory :=
  ⟨fun r o =>
    match r with
    | .workRom0 => rom o % 256
    | .workRom1 => rom (0x4000 + o) % 256
    | _ => 0⟩

/-- `view.setUint8(offset, value)`: stores `value` truncated to 8 bits. -/
def Memory.setByte (m : Memory) (r : RegionId) (o v : Nat) : Memory :=
  ⟨fun r2 o2 => if r2 = r ∧ o2 = o then v % 256 else m.data r2 o2⟩

/-- `Memory.readUint8`. -/
def Memory.readUint8 (m : Memory) (addr : Nat) : Except String Nat :=
  match map addr with
  | .error e => .error e
  | .ok (view, offset, _) => .ok (m.data view offset)

/-- `Memory.writeUint8`: the write is silently discarded unless the
resolved mode is `Writable`. -/
def Memory.writeUint8 (m : Memory) (addr value : Nat) : Except String Memory :=
  match map addr with
  | .error e => .error e
  | .ok (view, offset, mode) =>
    if mode = WriteMode.Writable then .ok (m.setByte view offset value) else .ok m

/-- `Memory.readUint16LE`: a combined little-endian read when both bytes
resolve to the same view, otherwise two independent single-byte reads. -/
def Memory.readUint16LE (m : Memory) (addr : Nat) : Except String Nat :=
  match map addr with
  | .error e => .error e
  | .ok (view1, offset1, _) =>
    match map (addr + 1) with
    | .error e => .error e
    | .ok (view2, offset2, _) =>
      if view1 = view2 then
        .ok (m.data view1 offset1 ||| m.data view1 (offset1 + 1) <<< 8)
      else
        .ok (m.data view2 offset2 <<< 8 ||| m.data view1 offset1)

/-- `Memory.writeUint16LE`: a combined little-endian store when both bytes
resolve to the same view, otherwise the low and high bytes are written
independently, each subject to its own region permission. -/
def Memory.writeUint16LE (m : Memory) (addr value : Nat) : Except String Memory :=
  match map addr with
  | .error e => .error e
  | .ok (view1, offset1, mode1) =>
    match map (addr + 1) with
    | .error e => .error e
    | .ok (view2, offset2, mode2) =>
      if view1 = view2 then
        if mode1 = WriteMode.Writable then
          .ok ((m.setByte view1 offset1 (value &&& 0xff)).setByte view1 (offset1 + 1)
                ((value >>> 8) &&& 0xff))
        else
          .ok m
      else
        let low := value &&& 0xff
        let high := (value &&& 0xff00) >>> 8
        let m1 := if mode1 = WriteMode.Writable then m.setByte view1 offset1 low else m
        let m2 := if mode2 = WriteMode.Writable then m1.setByte view2 offset2 high else m1
        .ok m2

/-! The CPU register file (`SharpLR35902`). Flag constants exactly as in the
source. -/

def ZERO : Nat := 0b01000000
def SUBTRACT : Nat := 0b00100000
def HALF_CARRY : Nat := 0b00010000
def CARRY : Nat := 0b00001000

structure SharpLR35902 where
  memory : Memory
  af : Nat := 0
  bc : Nat := 0
  de : Nat := 0
  hl : Nat := 0
  sp : Nat := 0
  pc : Nat := 0

/-- Getter `f`. -/
def SharpLR35902.f (cpu : SharpLR35902) : Nat := cpu.af &&& 0x00ff

/-- Setter `f`. -/
def SharpLR35902.set_f (cpu : SharpLR35902) (value : Nat) : SharpLR35902 :=
  { cpu with af := value ||| (cpu.af &&& 0xff00) }

/-- Getter `a` (source returns `this.af & 0xff00`, with no shift). -/
def SharpLR35902.a (cpu : SharpLR35902) : Nat := cpu.af &&& 0xff00

/-- Setter `a`. -/
def SharpLR35902.set_a (cpu : SharpLR35902) (value : Nat) : SharpLR35902 :=
  { cpu with af := (value <<< 8) ||| (cpu.af &&& 0x00ff) }

/-- Getter `b` (source returns `this.bc & 0xff00`, with no shift). -/
def SharpLR35902.b (cpu : SharpLR35902) : Nat := cpu.bc &&& 0xff00

/-- Setter `b`. -/
def SharpLR35902.set_b (cpu : SharpLR35902) (value : Nat) : SharpLR35902 :=
  { cpu with bc := (value <<< 8) ||| (cpu.bc &&& 0x00ff) }

/-- Getter `c`. -/
def SharpLR35902.c (cpu : SharpLR35902) : Nat := cpu.bc &&& 0x00ff

/-- Setter `c`. -/
def SharpLR35902.set_c (cpu : SharpLR35902) (value : Nat) : SharpLR35902 :=
  { cpu with bc := value ||| (cpu.bc &&& 0xff00) }

/-- Getter `d` (source returns `this.de & 0xff00`, with no shift). -/
def SharpLR35902.d (cpu : SharpLR35902) : Nat := cpu.de &&& 0xff00

/-- Setter `d`. -/
def SharpLR35902.set_d (cpu : SharpLR35902) (value : Nat) : SharpLR35902 :=
  { cpu with de := (value <<< 8) ||| (cpu.de &&& 0x00ff) }

/-- Getter `e`. -/
def SharpLR35902.e (cpu : SharpLR35902) : Nat := cpu.de &&& 0x00ff

/-- Setter `e`. -/
def SharpLR35902.set_e (cpu : SharpLR35902) (value : Nat) : SharpLR35902 :=
  { cpu with de := value ||| (cpu.de &&& 0xff00) }

/-- Getter `h` (source returns `this.hl & 0xff00`, with no shift). -/
def SharpLR35902.h (cpu : SharpLR35902) : Nat := cpu.hl &&& 0xff00

/-- Setter `h`. -/
def SharpLR35902.set_h (cpu : SharpLR35902) (value : Nat) : SharpLR35902 :=
  { cpu with hl := (value <<< 8) ||| (cpu.hl &&& 0x00ff) }

/-- Getter `l`. -/
def SharpLR35902.l (cpu : SharpLR35902) : Nat := cpu.hl &&& 0x00ff

/-- Setter `l`. -/
def SharpLR35902.set_l (cpu : SharpLR35902) (value : Nat) : SharpLR35902 :=
  { cpu with hl := value ||| (cpu.hl &&& 0xff00) }

/-- Getter `zero`: `(this.f & ZERO) > 0`. -/
def SharpLR35902.zero (cpu : SharpLR35902) : Bool := decide (cpu.f &&& ZERO > 0)

/-- Setter `zero`. -/
def SharpLR35902.set_zero (cpu : SharpLR35902) (value : Bool) : SharpLR35902 :=
  if value then cpu.set_f (cpu.f ||| ZERO) else cpu.set_f (cpu.f &&& (0xff ^^^ ZERO))

/-- Getter `subtract`: the source tests `(this.f & ZERO) > 0`, the ZERO
bit, not the SUBTRACT bit. -/
def SharpLR35902.subtract (cpu : SharpLR35902) : Bool := decide (cpu.f &&& ZERO > 0)

/-- Setter `subtract`. -/
def SharpLR35902.set_subtract (cpu : SharpLR35902) (value : Bool) : SharpLR35902 :=
  if value then cpu.set_f (cpu.f ||| SUBTRACT)
  else cpu.set_f (cpu.f &&& (0xff ^^^ SUBTRACT))

/-- Getter `halfCarry`: `(this.f & HALF_CARRY) > 0`. -/
def SharpLR35902.halfCarry (cpu : SharpLR35902) : Bool :=
  decide (cpu.f &&& HALF_CARRY > 0)

/-- Setter `halfCarry`. -/
def SharpLR35902.set_halfCarry (cpu : SharpLR35902) (value : Bool) : SharpLR35902 :=
  if value then cpu.set_f (cpu.f ||| HALF_CARRY)
  else cpu.set_f (cpu.f &&& (0xff ^^^ HALF_CARRY))

/-- Getter `carry`: `(this.f & CARRY) > 0`. -/
def SharpLR35902.carry (cpu : SharpLR35902) : Bool := decide (cpu.f &&& CARRY > 0)

/-- Setter `carry`. -/
def SharpLR35902.set_carry (cpu : SharpLR35902) (value : Bool) : SharpLR35902 :=
  if value then cpu.set_f (cpu.f ||| CARRY)
  else cpu.set_f (cpu.f &&& (0xff ^^^ CARRY))

/-- `SharpLR35902.step`: fetches the opcode at `addr`; the opcode switch
has only its default branch, which throws. -/
def SharpLR35902.step (cpu : SharpLR35902) (addr : Nat) : Except String Nat :=
  match cpu.memory.readUint8 addr with
  | .error e => .error e
  | .ok opcode =>
    .error ("Encountered undefined opcode \x27" ++ toString opcode ++ "\x27, stopping!")

/-- The all-zero cartridge image. -/
def zeroRom : Nat → Nat := fun _ => 0

/-- A memory built from the all-zero cartridge image. -/
def mem0 : Memory := Memory.fresh zeroRom

/-- A freshly constructed CPU over `mem0` (all registers zero). -/
def cpu0 : SharpLR35902 := { memory := mem0 }

/-! Characterisation of `map` on each branch of the address decoder. -/

/-- Discharges a false guard of an if-then-else, used to step over the
address decoder's earlier range checks. -/
theorem ifSkip {c : Prop} [Decidable c] {α : Sort*} {t e : α} (hc : ¬c) :
    (if c then t else e) = e := if_neg hc

/-- The dependent variant of `ifSkip`, for the echo branch. -/
theorem difSkip {c : Prop} [Decidable c] {α : Sort*} {t : c → α} {e : ¬c → α}
    (hc : ¬c) : dite c t e = e hc := dif_neg hc

theorem map_rom0 (a : Nat) (h : a ≤ 0x3fff) :
    map a = .ok (.workRom0, a, .ReadOnly) := by
  rw [map.eq_def, if_pos ⟨Nat.zero_le a, h⟩]

theorem map_rom1 (a : Nat) (h1 : 0x4000 ≤ a) (h2 : a ≤ 0x7fff) :
    map a = .ok (.workRom1, a - 0x4000, .ReadOnly) := by
  rw [map.eq_def, ifSkip (by omega), if_pos ⟨h1, h2⟩]

theorem map_tiles0 (a : Nat) (h1 : 0x8000 ≤ a) (h2 : a ≤ 0x8fff) :
    map a = .ok (.tiles0, a - 0x8000, .Writable) := by
  rw [map.eq_def, ifSkip (by omega), ifSkip (by omega), if_pos ⟨h1, h2⟩]

theorem map_tiles1 (a : Nat) (h1 : 0x9000 ≤ a) (h2 : a ≤ 0x97ff) :
    map a = .ok (.tiles1, a - 0x9000, .Writable) := by
  rw [map.eq_def, ifSkip (by omega), ifSkip (by omega), ifSkip (by omega),
    if_pos ⟨h1, h2⟩]

theorem map_tileMap0 (a : Nat) (h1 : 0x9800 ≤ a) (h2 : a ≤ 0x9bff) :
    map a = .ok (.tileMap0, a - 0x9800, .Writable) := by
  rw [map.eq_def, ifSkip (by omega), ifSkip (by omega), ifSkip (by omega),
    ifSkip (by omega), if_pos ⟨h1, h2⟩]

theorem map_tileMap1 (a : Nat) (h1 : 0x9c00 ≤ a) (h2 : a ≤ 0x9fff) :
    map a = .ok (.tileMap1, a - 0x9c00, .Writable) := by
  rw [map.eq_def, ifSkip (by omega), ifSkip (by omega), ifSkip (by omega),
    ifSkip (by omega), ifSkip (by omega), if_pos ⟨h1, h2⟩]

theorem map_externalRam (a : Nat) (h1 : 0xa000 ≤ a) (h2 : a ≤ 0xbfff) :
    map a = .ok (.externalRam, a - 0xa000, .Writable) := by
  rw [map.eq_def, ifSkip (by omega), ifSkip (by omega), ifSkip (by omega),
    ifSkip (by omega), ifSkip (by omega), ifSkip (by omega), if_pos ⟨h1, h2⟩]

theorem map_workRam0 (a : Nat) (h1 : 0xc000 ≤ a) (h2 : a ≤ 0xcfff) :
    map a = .ok (.workRam0, a - 0xc000, .Writable) := by
  rw [map.eq_def, ifSkip (by omega), ifSkip (by omega), ifSkip (by omega),
    ifSkip (by omega), ifSkip (by omega), ifSkip (by omega), ifSkip (by omega),
    if_pos ⟨h1, h2⟩]

theorem map_workRam1 (a : Nat) (h1 : 0xd000 ≤ a) (h2 : a ≤ 0xdfff) :
    map a = .ok (.workRam1, a - 0xd000, .Writable) := by
  rw [map.eq_def, ifSkip (by omega), ifSkip (by omega), ifSkip (by omega),
    ifSkip (by omega), ifSkip (by omega), ifSkip (by omega), ifSkip (by omega),
    ifSkip (by omega), if_pos ⟨h1, h2⟩]

theorem map_echo (a : Nat) (h1 : 0xe000 ≤ a) (h2 : a ≤ 0xfdff) :
    map a = map (a - 0x2000) := by
  rw [map.eq_def, ifSkip (by omega), ifSkip (by omega), ifSkip (by omega),
    ifSkip (by omega), ifSkip (by omega), ifSkip (by omega), ifSkip (by omega),
    ifSkip (by omega), ifSkip (by omega), dif_pos ⟨h1, h2⟩]

theorem map_oam (a : Nat) (h1 : 0xfe00 ≤ a) (h2 : a ≤ 0xfe9f) :
    map a = .ok (.spriteAttributeTable, a - 0xfe00, .Writable) := by
  rw [map.eq_def, ifSkip (by omega), ifSkip (by omega), ifSkip (by omega),
    ifSkip (by omega), ifSkip (by omega), ifSkip (by omega), ifSkip (by omega),
    ifSkip (by omega), ifSkip (by omega), difSkip (by omega), if_pos ⟨h1, h2⟩]

theorem map_unmapped (a : Nat) (h : 0xfea0 ≤ a) : ∃ e, map a = .error e := by
  rw [map.eq_def, ifSkip (by omega), ifSkip (by omega), ifSkip (by omega),
    ifSkip (by omega), ifSkip (by omega), ifSkip (by omega), ifSkip (by omega),
    ifSkip (by omega), ifSkip (by omega), difSkip (by omega), ifSkip (by omega)]
  split_ifs <;> exact ⟨_, rfl⟩

theorem map_ok_le (a : Nat) (r : RegionId) (o : Nat) (w : WriteMode)
    (h : map a = .ok (r, o, w)) : a ≤ 0xfe9f := by
  by_contra hc
  obtain ⟨e, he⟩ := map_unmapped a (by omega)
  rw [he] at h
  exact Except.noConfusion h

/-- Whenever two consecutive addresses resolve to the same region object,
their resolved offsets are consecutive as well. -/
theorem map_consecutive (a : Nat) (r : RegionId) (o1 o2 : Nat) (w1 w2 : WriteMode)
    (h1 : map a = .ok (r, o1, w1)) (h2 : map (a + 1) = .ok (r, o2, w2)) :
    o2 = o1 + 1 := by
  have ha : a ≤ 0xfe9f := map_ok_le a r o1 w1 h1
  have ha2 : a + 1 ≤ 0xfe9f := map_ok_le (a + 1) r o2 w2 h2
  rcases (by omega :
      a ≤ 0x3fff ∨ (0x4000 ≤ a ∧ a ≤ 0x7fff) ∨ (0x8000 ≤ a ∧ a ≤ 0x8fff) ∨
      (0x9000 ≤ a ∧ a ≤ 0x97ff) ∨ (0x9800 ≤ a ∧ a ≤ 0x9bff) ∨
      (0x9c00 ≤ a ∧ a ≤ 0x9fff) ∨ (0xa000 ≤ a ∧ a ≤ 0xbfff) ∨
      (0xc000 ≤ a ∧ a ≤ 0xcfff) ∨ (0xd000 ≤ a ∧ a ≤ 0xdfff) ∨
      (0xe000 ≤ a ∧ a ≤ 0xfdff) ∨ (0xfe00 ≤ a ∧ a ≤ 0xfe9e)) with
    hc | hc | hc | hc | hc | hc | hc | hc | hc | hc | hc
  · rcases (by omega : a ≤ 0x3ffe ∨ a = 0x3fff) with hb | hb
    · rw [map_rom0 a (by omega)] at h1
      rw [map_rom0 (a + 1) (by omega)] at h2
      simp only [Except.ok.injEq, Prod.mk.injEq] at h1 h2
      omega
    · rw [map_rom0 a (by omega)] at h1
      rw [map_rom1 (a + 1) (by omega) (by omega)] at h2
      simp only [Except.ok.injEq, Prod.mk.injEq] at h1 h2
      exact RegionId.noConfusion (h1.1.trans h2.1.symm)
  · rcases (by omega : a ≤ 0x7ffe ∨ a = 0x7fff) with hb | hb
    · rw [map_rom1 a (by omega) (by omega)] at h1
      rw [map_rom1 (a + 1) (by omega) (by omega)] at h2
      simp only [Except.ok.injEq, Prod.mk.injEq] at h1 h2
      omega
    · rw [map_rom1 a (by omega) (by omega)] at h1
      rw [map_tiles0 (a + 1) (by omega) (by omega)] at h2
      simp only [Except.ok.injEq, Prod.mk.injEq] at h1 h2
      exact RegionId.noConfusion (h1.1.trans h2.1.symm)
  · rcases (by omega : a ≤ 0x8ffe ∨ a = 0x8fff) with hb | hb
    · rw [map_tiles0 a (by omega) (by omega)] at h1
      rw [map_tiles0 (a + 1) (by omega) (by omega)] at h2
      simp only [Except.ok.injEq, Prod.mk.injEq] at h1 h2
      omega
    · rw [map_tiles0 a (by omega) (by omega)] at h1
      rw [map_tiles1 (a + 1) (by omega) (by omega)] at h2
      simp only [Except.ok.injEq, Prod.mk.injEq] at h1 h2
      exact RegionId.noConfusion (h1.1.trans h2.1.symm)
  · rcases (by omega : a ≤ 0x97fe ∨ a = 0x97ff) with hb | hb
    · rw [map_tiles1 a (by omega) (by omega)] at h1
      rw [map_tiles1 (a + 1) (by omega) (by omega)] at h2
      simp only [Except.ok.injEq, Prod.mk.injEq] at h1 h2
      omega
    · rw [map_tiles1 a (by omega) (by omega)] at h1
      rw [map_tileMap0 (a + 1) (by omega) (by omega)] at h2
      simp only [Except.ok.injEq, Prod.mk.injEq] at h1 h2
      exact RegionId.noConfusion (h1.1.trans h2.1.symm)
  · rcases (by omega : a ≤ 0x9bfe ∨ a = 0x9bff) with hb | hb
    · rw [map_tileMap0 a (by omega) (by omega)] at h1
      rw [map_tileMap0 (a + 1) (by omega) (by omega)] at h2
      simp only [Except.ok.injEq, Prod.mk.injEq] at h1 h2
      omega
    · rw [map_tileMap0 a (by omega) (by omega)] at h1
      rw [map_tileMap1 (a + 1) (by omega) (by omega)] at h2
      simp only [Except.ok.injEq, Prod.mk.injEq] at h1 h2
      exact RegionId.noConfusion (h1.1.trans h2.1.symm)
  · rcases (by omega : a ≤ 0x9ffe ∨ a = 0x9fff) with hb | hb
    · rw [map_tileMap1 a (by omega) (by omega)] at h1
      rw [map_tileMap1 (a + 1) (by omega) (by omega)] at h2
      simp only [Except.ok.injEq, Prod.mk.injEq] at h1 h2
      omega
    · rw [map_tileMap1 a (by omega) (by omega)] at h1
      rw [map_externalRam (a + 1) (by omega) (by omega)] at h2
      simp only [Except.ok.injEq, Prod.mk.injEq] at h1 h2
      exact RegionId.noConfusion (h1.1.trans h2.1.symm)
  · rcases (by omega : a ≤ 0xbffe ∨ a = 0xbfff) with hb | hb
    · rw [map_externalRam a (by omega) (by omega)] at h1
      rw [map_externalRam (a + 1) (by omega) (by omega)] at h2
      simp only [Except.ok.injEq, Prod.mk.injEq] at h1 h2
      omega
    · rw [map_externalRam a (by omega) (by omega)] at h1
      rw [map_workRam0 (a + 1) (by omega) (by omega)] at h2
      simp only [Except.ok.injEq, Prod.mk.injEq] at h1 h2
      exact RegionId.noConfusion (h1.1.trans h2.1.symm)
  · rcases (by omega : a ≤ 0xcffe ∨ a = 0xcfff) with hb | hb
    · rw [map_workRam0 a (by omega) (by omega)] at h1
      rw [map_workRam0 (a + 1) (by omega) (by omega)] at h2
      simp only [Except.ok.injEq, Prod.mk.injEq] at h1 h2
      omega
    · rw [map_workRam0 a (by omega) (by omega)] at h1
      rw [map_workRam1 (a + 1) (by omega) (by omega)] at h2
      simp only [Except.ok.injEq, Prod.mk.injEq] at h1 h2
      exact RegionId.noConfusion (h1.1.trans h2.1.symm)
  · rcases (by omega : a ≤ 0xdffe ∨ a = 0xdfff) with hb | hb
    · rw [map_workRam1 a (by omega) (by omega)] at h1
      rw [map_workRam1 (a + 1) (by omega) (by omega)] at h2
      simp only [Except.ok.injEq, Prod.mk.injEq] at h1 h2
      omega
    · rw [map_workRam1 a (by omega) (by omega)] at h1
      rw [map_echo (a + 1) (by omega) (by omega)] at h2
      rw [(by omega : a + 1 - 0x2000 = 0xc000)] at h2
      rw [map_workRam0 0xc000 (by omega) (by omega)] at h2
      simp only [Except.ok.injEq, Prod.mk.injEq] at h1 h2
      exact RegionId.noConfusion (h1.1.trans h2.1.symm)
  · rw [map_echo a (by omega) (by omega)] at h1
    rcases (by omega : a ≤ 0xfdfe ∨ a = 0xfdff) with hb | hb
    · rw [map_echo (a + 1) (by omega) (by omega)] at h2
      rw [(by omega : a + 1 - 0x2000 = (a - 0x2000) + 1)] at h2
      rcases (by omega :
          a - 0x2000 ≤ 0xcffe ∨ a - 0x2000 = 0xcfff ∨
          (0xd000 ≤ a - 0x2000 ∧ a - 0x2000 ≤ 0xddfe)) with hd | hd | hd
      · rw [map_workRam0 (a - 0x2000) (by omega) (by omega)] at h1
        rw [map_workRam0 (a - 0x2000 + 1) (by omega) (by omega)] at h2
        simp only [Except.ok.injEq, Prod.mk.injEq] at h1 h2
        omega
      · rw [map_workRam0 (a - 0x2000) (by omega) (by omega)] at h1
        rw [map_workRam1 (a - 0x2000 + 1) (by omega) (by omega)] at h2
        simp only [Except.ok.injEq, Prod.mk.injEq] at h1 h2
        exact RegionId.noConfusion (h1.1.trans h2.1.symm)
      · rw [map_workRam1 (a - 0x2000) (by omega) (by omega)] at h1
        rw [map_workRam1 (a - 0x2000 + 1) (by omega) (by omega)] at h2
        simp only [Except.ok.injEq, Prod.mk.injEq] at h1 h2
        omega
    · rw [map_workRam1 (a - 0x2000) (by omega) (by omega)] at h1
      rw [map_oam (a + 1) (by omega) (by omega)] at h2
      simp only [Except.ok.injEq, Prod.mk.injEq] at h1 h2
      exact RegionId.noConfusion (h1.1.trans h2.1.symm)
  · rw [map_oam a (by omega) (by omega)] at h1
    rw [map_oam (a + 1) (by omega) (by omega)] at h2
    simp only [Except.ok.injEq, Prod.mk.injEq] at h1 h2
    omega

/-! Reduction lemmas for the bus operations, driven by a resolved `map`. -/

theorem setByte_same (m : Memory) (r : RegionId) (o v : Nat) :
    (m.setByte r o v).data r o = v % 256 := by
  simp [Memory.setByte]

theorem setByte_other (m : Memory) (r : RegionId) (o v : Nat) (r2 : RegionId)
    (o2 : Nat) (h : ¬(r2 = r ∧ o2 = o)) :
    (m.setByte r o v).data r2 o2 = m.data r2 o2 := by
  simp [Memory.setByte, h]

theorem readUint8_ok (m : Memory) (a : Nat) (r : RegionId) (o : Nat)
    (w : WriteMode) (hm : map a = .ok (r, o, w)) :
    m.readUint8 a = .ok (m.data r o) := by
  unfold Memory.readUint8
  rw [hm]

theorem writeUint8_writable (m : Memory) (a v : Nat) (r : RegionId) (o : Nat)
    (hm : map a = .ok (r, o, .Writable)) :
    m.writeUint8 a v = .ok (m.setByte r o v) := by
  unfold Memory.writeUint8
  rw [hm]
  simp

theorem writeUint8_readonly (m : Memory) (a v : Nat) (r : RegionId) (o : Nat)
    (hm : map a = .ok (r, o, .ReadOnly)) :
    m.writeUint8 a v = .ok m := by
  unfold Memory.writeUint8
  rw [hm]
  simp

theorem readUint16LE_same (m : Memory) (a : Nat) (r : RegionId) (o1 o2 : Nat)
    (w1 w2 : WriteMode) (hm1 : map a = .ok (r, o1, w1))
    (hm2 : map (a + 1) = .ok (r, o2, w2)) :
    m.readUint16LE a = .ok (m.data r o1 ||| m.data r (o1 + 1) <<< 8) := by
  unfold Memory.readUint16LE
  rw [hm1, hm2]
  simp

theorem readUint16LE_diff (m : Memory) (a : Nat) (r1 r2 : RegionId)
    (o1 o2 : Nat) (w1 w2 : WriteMode) (hne : r1 ≠ r2)
    (hm1 : map a = .ok (r1, o1, w1)) (hm2 : map (a + 1) = .ok (r2, o2, w2)) :
    m.readUint16LE a = .ok (m.data r2 o2 <<< 8 ||| m.data r1 o1) := by
  unfold Memory.readUint16LE
  rw [hm1, hm2]
  simp [hne]

theorem writeUint16LE_ro_w (m : Memory) (a v : Nat) (r1 r2 : RegionId)
    (o1 o2 : Nat) (hne : r1 ≠ r2) (hm1 : map a = .ok (r1, o1, .ReadOnly))
    (hm2 : map (a + 1) = .ok (r2, o2, .Writable)) :
    m.writeUint16LE a v = .ok (m.setByte r2 o2 ((v &&& 0xff00) >>> 8)) := by
  unfold Memory.writeUint16LE
  rw [hm1, hm2]
  simp [hne]

theorem fresh_rom1_byte (rom : Nat → Nat) (o : Nat) :
    (Memory.fresh rom).data .workRom1 o = rom (0x4000 + o) % 256 := rfl

theorem write_then_read (m : Memory) (aw ar v : Nat) (r : RegionId) (o : Nat)
    (w : WriteMode) (hw : map aw = .ok (r, o, .Writable))
    (hr : map ar = .ok (r, o, w)) :
    (m.writeUint8 aw v).bind (fun m2 => m2.readUint8 ar) = .ok (v % 256) := by
  rw [writeUint8_writable m aw v r o hw]
  simp only [Except.bind]
  rw [readUint8_ok _ ar r o w hr, setByte_same]

/-- C4: for every address `a` in the echo region 0xE000-0xFDFF,
`readUint8 a` equals `readUint8 (a - 0x2000)`, and for every byte `v`,
writing through either address makes a read of the other return `v`: both
addresses resolve to the same underlying storage byte. -/
theorem echo_region_mirror (m : Memory) (a v : Nat)
    (h1 : 0xe000 ≤ a) (h2 : a ≤ 0xfdff) (hv : v < 256) :
    m.readUint8 a = m.readUint8 (a - 0x2000) ∧
    (m.writeUint8 a v).bind (fun m2 => m2.readUint8 (a - 0x2000)) = .ok v ∧
    (m.writeUint8 (a - 0x2000) v).bind (fun m2 => m2.readUint8 a) = .ok v := by
  have hecho := map_echo a h1 h2
  have hchar : ∃ r o, map (a - 0x2000) = .ok (r, o, .Writable) := by
    rcases (by omega : a - 0x2000 ≤ 0xcfff ∨ 0xd000 ≤ a - 0x2000) with hc | hc
    · exact ⟨_, _, map_workRam0 (a - 0x2000) (by omega) hc⟩
    · exact ⟨_, _, map_workRam1 (a - 0x2000) hc (by omega)⟩
  obtain ⟨r, o, hm⟩ := hchar
  have hv2 : v % 256 = v := Nat.mod_eq_of_lt hv
  refine ⟨?_, ?_, ?_⟩
  · rw [readUint8_ok m a r o _ (hecho.trans hm), readUint8_ok m (a - 0x2000) r o _ hm]
  · rw [write_then_read m a (a - 0x2000) v r o _ (hecho.trans hm) hm, hv2]
  · rw [write_then_read m (a - 0x2000) a v r o _ hm (hecho.trans hm), hv2]

/-- C6: the two implementation paths of `readUint16LE` agree: whenever both
`a` and `a + 1` resolve without error, the 16-bit read equals the low byte
or-ed with the high byte shifted left by 8, whether the two bytes fall in
the same storage region or in different ones. -/
theorem readUint16LE_two_paths_agree (m : Memory) (a lo hi : Nat)
    (h1 : m.readUint8 a = .ok lo) (h2 : m.readUint8 (a + 1) = .ok hi) :
    m.readUint16LE a = .ok (lo ||| hi <<< 8) := by
  obtain ⟨r1, o1, w1, hm1⟩ : ∃ r o w, map a = .ok (r, o, w) := by
    unfold Memory.readUint8 at h1
    cases hm : map a with
    | error e => rw [hm] at h1; exact Except.noConfusion h1
    | ok t => obtain ⟨r, o, w⟩ := t; exact ⟨r, o, w, rfl⟩
  obtain ⟨r2, o2, w2, hm2⟩ : ∃ r o w, map (a + 1) = .ok (r, o, w) := by
    unfold Memory.readUint8 at h2
    cases hm : map (a + 1) with
    | error e => rw [hm] at h2; exact Except.noConfusion h2
    | ok t => obtain ⟨r, o, w⟩ := t; exact ⟨r, o, w, rfl⟩
  have hlo : lo = m.data r1 o1 := by
    rw [readUint8_ok m a r1 o1 w1 hm1] at h1
    exact (Except.ok.inj h1).symm
  have hhi : hi = m.data r2 o2 := by
    rw [readUint8_ok m (a + 1) r2 o2 w2 hm2] at h2
    exact (Except.ok.inj h2).symm
  by_cases hr : r1 = r2
  · subst hr
    have hoff := map_consecutive a r1 o1 o2 w1 w2 hm1 hm2
    rw [readUint16LE_same m a r1 o1 o2 w1 w2 hm1 hm2, hlo, hhi, hoff]
  · rw [readUint16LE_diff m a r1 r2 o1 o2 w1 w2 hr hm1 hm2, hlo, hhi,
      Nat.lor_comm]

/-- C7: writes anywhere in the read-only ROM range 0x0000-0x7FFF return
normally, are silently discarded, and leave every readable byte of the bus
unchanged. -/
theorem rom_write_discarded (m : Memory) (a v : Nat) (ha : a ≤ 0x7fff) :
    m.writeUint8 a v = .ok m ∧
    ∀ a2, (m.writeUint8 a v).bind (fun m2 => m2.readUint8 a2) = m.readUint8 a2 := by
  have hok : m.writeUint8 a v = .ok m := by
    rcases (by omega : a ≤ 0x3fff ∨ 0x4000 ≤ a) with hc | hc
    · exact writeUint8_readonly m a v _ _ (map_rom0 a hc)
    · exact writeUint8_readonly m a v _ _ (map_rom1 a hc ha)
  refine ⟨hok, fun a2 => ?_⟩
  rw [hok]
  simp only [Except.bind]

/-- C9: the address decoder is a pure total function of the address (it
takes nothing but the address and touches no state), and it recurses at
most once: on the echo region 0xE000-0xFDFF it resolves to the translated
address `a - 0x2000`, which always lands in the work-RAM range
0xC000-0xDDFF, outside the echo range, so the self-call hits a
non-recursive branch. -/
theorem map_recurses_at_most_once (a : Nat) (h1 : 0xe000 ≤ a) (h2 : a ≤ 0xfdff) :
    map a = map (a - 0x2000) ∧ 0xc000 ≤ a - 0x2000 ∧ a - 0x2000 ≤ 0xddff ∧
    ¬(0xe000 ≤ a - 0x2000 ∧ a - 0x2000 ≤ 0xfdff) :=
  ⟨map_echo a h1 h2, by omega, by omega, by omega⟩

/-- C10: every address of the writable RAM regions (video tiles and tile
maps 0x8000-0x9FFF, external RAM 0xA000-0xBFFF, work RAM 0xC000-0xDFFF, the
echo region 0xE000-0xFDFF, and the object-attribute table 0xFE00-0xFE9F)
reads back as 0 on a freshly constructed `Memory`. -/
theorem fresh_ram_reads_zero (rom : Nat → Nat) (a : Nat)
    (h : (0x8000 ≤ a ∧ a ≤ 0x9fff) ∨ (0xa000 ≤ a ∧ a ≤ 0xbfff) ∨
         (0xc000 ≤ a ∧ a ≤ 0xdfff) ∨ (0xe000 ≤ a ∧ a ≤ 0xfdff) ∨
         (0xfe00 ≤ a ∧ a ≤ 0xfe9f)) :
    (Memory.fresh rom).readUint8 a = .ok 0 := by
  rcases (by omega :
      (0x8000 ≤ a ∧ a ≤ 0x8fff) ∨ (0x9000 ≤ a ∧ a ≤ 0x97ff) ∨
      (0x9800 ≤ a ∧ a ≤ 0x9bff) ∨ (0x9c00 ≤ a ∧ a ≤ 0x9fff) ∨
      (0xa000 ≤ a ∧ a ≤ 0xbfff) ∨ (0xc000 ≤ a ∧ a ≤ 0xcfff) ∨
      (0xd000 ≤ a ∧ a ≤ 0xdfff) ∨ (0xe000 ≤ a ∧ a ≤ 0xfdff) ∨
      (0xfe00 ≤ a ∧ a ≤ 0xfe9f)) with
    hc | hc | hc | hc | hc | hc | hc | hc | hc
  · rw [readUint8_ok _ a _ _ _ (map_tiles0 a hc.1 hc.2)]; rfl
  · rw [readUint8_ok _ a _ _ _ (map_tiles1 a hc.1 hc.2)]; rfl
  · rw [readUint8_ok _ a _ _ _ (map_tileMap0 a hc.1 hc.2)]; rfl
  · rw [readUint8_ok _ a _ _ _ (map_tileMap1 a hc.1 hc.2)]; rfl
  · rw [readUint8_ok _ a _ _ _ (map_externalRam a hc.1 hc.2)]; rfl
  · rw [readUint8_ok _ a _ _ _ (map_workRam0 a hc.1 hc.2)]; rfl
  · rw [readUint8_ok _ a _ _ _ (map_workRam1 a hc.1 hc.2)]; rfl
  · rcases (by omega : a - 0x2000 ≤ 0xcfff ∨ 0xd000 ≤ a - 0x2000) with hd | hd
    · rw [readUint8_ok _ a _ _ _
        ((map_echo a hc.1 hc.2).trans (map_workRam0 (a - 0x2000) (by omega) hd))]
      rfl
    · rw [readUint8_ok _ a _ _ _
        ((map_echo a hc.1 hc.2).trans (map_workRam1 (a - 0x2000) hd (by omega)))]
      rfl
  · rw [readUint8_ok _ a _ _ _ (map_oam a hc.1 hc.2)]; rfl

/-- C5: a 16-bit write that straddles the read-only/writable boundary at
0x7FFF/0x8000 writes only the writable high byte, byte-by-byte rather than
atomically: the read-only byte at 0x7FFF is unchanged, 0x8000 now holds
0xBE, and (the ROM byte at 0x7FFF being zero on a fresh image, as in the
repository's test) a 16-bit read back at 0x7FFF returns 0xBE00, not 0xBEEF
and not 0x0000. -/
theorem boundary_write_splits (rom : Nat → Nat) (h0 : rom 0x7fff % 256 = 0) :
    ((Memory.fresh rom).writeUint16LE 0x7fff 0xbeef).bind
        (fun m2 => m2.readUint8 0x7fff) = (Memory.fresh rom).readUint8 0x7fff ∧
    ((Memory.fresh rom).writeUint16LE 0x7fff 0xbeef).bind
        (fun m2 => m2.readUint8 0x8000) = .ok 0xbe ∧
    ((Memory.fresh rom).writeUint16LE 0x7fff 0xbeef).bind
        (fun m2 => m2.readUint16LE 0x7fff) = .ok 0xbe00 := by
  have hm1 : map 0x7fff = .ok (.workRom1, 0x3fff, .ReadOnly) :=
    map_rom1 0x7fff (by omega) (by omega)
  have hm2 : map (0x7fff + 1) = .ok (.tiles0, 0, .Writable) :=
    map_tiles0 0x8000 (by omega) (by omega)
  have hne : (RegionId.workRom1 : RegionId) ≠ .tiles0 := by decide
  have hw := writeUint16LE_ro_w (Memory.fresh rom) 0x7fff 0xbeef _ _ _ _ hne hm1 hm2
  rw [hw]
  simp only [Except.bind]
  refine ⟨?_, ?_, ?_⟩
  · rw [readUint8_ok _ 0x7fff _ _ _ hm1, readUint8_ok (Memory.fresh rom) 0x7fff _ _ _ hm1,
      setByte_other _ _ _ _ _ _ (by simp)]
  · rw [readUint8_ok _ 0x8000 _ _ _ (map_tiles0 0x8000 (by omega) (by omega))]
    rfl
  · rw [readUint16LE_diff _ 0x7fff _ _ _ _ _ _ hne hm1 hm2, setByte_same,
      setByte_other _ _ _ _ _ _ (by simp)]
    rw [fresh_rom1_byte, (by norm_num : (0x4000:Nat) + 0x3fff = 0x7fff), h0]
    rfl

/-- C1 (divergence witness): the claim says reading the high half of a pair
after setting the pair to `v` yields `v >>> 8`. The source getter for the
high half masks `0xff00` without shifting: with AF = 0x1234, `a` returns
0x1200, not 0x12, and the getter does not invert the setter
(`set_a 0x12` reads back as 0x1200). -/
theorem high_half_getter_unshifted :
    ({ cpu0 with af := 0x1234 } : SharpLR35902).a = 0x1200 ∧
    0x1234 >>> 8 = 0x12 ∧
    ({ cpu0 with af := 0x1234 } : SharpLR35902).a ≠ 0x1234 >>> 8 ∧
    (cpu0.set_a 0x12).a = 0x1200 ∧
    ({ cpu0 with bc := 0x1234 } : SharpLR35902).b = 0x1200 ∧
    ({ cpu0 with de := 0x1234 } : SharpLR35902).d = 0x1200 ∧
    ({ cpu0 with hl := 0x1234 } : SharpLR35902).h = 0x1200 := by
  decide

/-- C2 (divergence witness): the four flag constants sit at bits 6,5,4,3
(0x40/0x20/0x10/0x08) instead of the documented bits 7,6,5,4
(0x80/0x40/0x20/0x10); consequently setting carry from a clear flags
register yields F = 0x08, whose LOW nibble is nonzero. -/
theorem flag_constants_shifted :
    ZERO = 0x40 ∧ SUBTRACT = 0x20 ∧ HALF_CARRY = 0x10 ∧ CARRY = 0x08 ∧
    (cpu0.set_carry true).f = 0x08 ∧ (cpu0.set_carry true).f &&& 0x0f ≠ 0 := by
  decide

/-- C3 (divergence witness): the `subtract` getter tests the ZERO bit, so
setting subtract := true on clear flags and reading it back yields false,
while setting zero := true makes subtract read true — even though the two
setters do write distinct bits (0x40 and 0x20). -/
theorem subtract_reads_zero_bit :
    (cpu0.set_subtract true).subtract = false ∧
    (cpu0.set_zero true).subtract = true ∧
    (cpu0.set_zero true).f = 0x40 ∧
    (cpu0.set_subtract true).f = 0x20 := by
  decide

/-- C8 (counterexample): fetching at two different addresses that hold the
same opcode produces literally identical error values, so the error message
cannot surface the faulting address; it carries the opcode only. -/
theorem step_message_lacks_address :
    cpu0.step 0xc000 = .error "Encountered undefined opcode \x270\x27, stopping!" ∧
    cpu0.step 0xc001 = cpu0.step 0xc000 := by
  have hr0 : cpu0.memory.readUint8 0xc000 = .ok 0 := by
    rw [readUint8_ok _ 0xc000 _ _ _ (map_workRam0 0xc000 (by omega) (by omega))]
    rfl
  have hr1 : cpu0.memory.readUint8 0xc001 = .ok 0 := by
    rw [readUint8_ok _ 0xc001 _ _ _ (map_workRam0 0xc001 (by omega) (by omega))]
    rfl
  constructor
  · unfold SharpLR35902.step
    rw [hr0]
    rfl
  · unfold SharpLR35902.step
    rw [hr0, hr1]

/-- C8 (amended): for every address whose opcode fetch succeeds, `step`
fails loudly with a distinct unimplemented-instruction error whose message
surfaces the offending opcode value (the address is not part of the
message); with the opcode table still empty, this holds for every fetched
opcode. -/
theorem step_fails_loudly_with_opcode (cpu : SharpLR35902) (addr opcode : Nat)
    (h : cpu.memory.readUint8 addr = .ok opcode) :
    cpu.step addr =
      .error ("Encountered undefined opcode \x27" ++ toString opcode
        ++ "\x27, stopping!") := by
  unfold SharpLR35902.step
  rw [h]

/-- Witness for `echo_region_mirror` at the echo address 0xE123 with byte
0xAB on the blank-cartridge memory. -/
theorem echo_region_mirror_w :
    (0xe000:Nat) ≤ 0xe123 ∧ (0xe123:Nat) ≤ 0xfdff ∧ (0xab:Nat) < 256 ∧
    (mem0.readUint8 0xe123 = mem0.readUint8 (0xe123 - 0x2000) ∧
     (mem0.writeUint8 0xe123 0xab).bind
        (fun m2 => m2.readUint8 (0xe123 - 0x2000)) = .ok 0xab ∧
     (mem0.writeUint8 (0xe123 - 0x2000) 0xab).bind
        (fun m2 => m2.readUint8 0xe123) = .ok 0xab) :=
  ⟨by norm_num, by norm_num, by norm_num,
    echo_region_mirror mem0 0xe123 0xab (by norm_num) (by norm_num) (by norm_num)⟩

/-- Witness for `readUint16LE_two_paths_agree` at the ROM/VRAM boundary
address 0x7FFF on the blank-cartridge memory. -/
theorem readUint16LE_two_paths_agree_w :
    mem0.readUint8 0x7fff = .ok 0 ∧ mem0.readUint8 (0x7fff + 1) = .ok 0 ∧
    mem0.readUint16LE 0x7fff = .ok (0 ||| 0 <<< 8) := by
  have h1 : mem0.readUint8 0x7fff = .ok 0 := by
    rw [readUint8_ok _ 0x7fff _ _ _ (map_rom1 0x7fff (by omega) (by omega))]
    rfl
  have h2 : mem0.readUint8 (0x7fff + 1) = .ok 0 := by
    rw [readUint8_ok _ (0x7fff + 1) _ _ _ (map_tiles0 (0x7fff + 1) (by omega) (by omega))]
    rfl
  exact ⟨h1, h2, readUint16LE_two_paths_agree mem0 0x7fff 0 0 h1 h2⟩

/-- Witness for `rom_write_discarded` at ROM address 0x0100 with byte
0xAB. -/
theorem rom_write_discarded_w :
    (0x100:Nat) ≤ 0x7fff ∧
    (mem0.writeUint8 0x100 0xab = .ok mem0 ∧
     ∀ a2, (mem0.writeUint8 0x100 0xab).bind
        (fun m2 => m2.readUint8 a2) = mem0.readUint8 a2) :=
  ⟨by norm_num, rom_write_discarded mem0 0x100 0xab (by norm_num)⟩

/-- Witness for `map_recurses_at_most_once` at the first echo address
0xE000. -/
theorem map_recurses_at_most_once_w :
    (0xe000:Nat) ≤ 0xe000 ∧ (0xe000:Nat) ≤ 0xfdff ∧
    (map 0xe000 = map (0xe000 - 0x2000) ∧ 0xc000 ≤ 0xe000 - 0x2000 ∧
     0xe000 - 0x2000 ≤ 0xddff ∧
     ¬(0xe000 ≤ 0xe000 - 0x2000 ∧ 0xe000 - 0x2000 ≤ 0xfdff)) :=
  ⟨by norm_num, by norm_num,
    map_recurses_at_most_once 0xe000 (by norm_num) (by norm_num)⟩

/-- Witness for `fresh_ram_reads_zero` at VRAM address 0x8000 on the blank
cartridge. -/
theorem fresh_ram_reads_zero_w :
    ((0x8000 ≤ (0x8000:Nat) ∧ (0x8000:Nat) ≤ 0x9fff) ∨
     (0xa000 ≤ (0x8000:Nat) ∧ (0x8000:Nat) ≤ 0xbfff) ∨
     (0xc000 ≤ (0x8000:Nat) ∧ (0x8000:Nat) ≤ 0xdfff) ∨
     (0xe000 ≤ (0x8000:Nat) ∧ (0x8000:Nat) ≤ 0xfdff) ∨
     (0xfe00 ≤ (0x8000:Nat) ∧ (0x8000:Nat) ≤ 0xfe9f)) ∧
    (Memory.fresh zeroRom).readUint8 0x8000 = .ok 0 :=
  ⟨by omega, fresh_ram_reads_zero zeroRom 0x8000 (by omega)⟩

/-- Witness for `boundary_write_splits` on the all-zero cartridge image. -/
theorem boundary_write_splits_w :
    zeroRom 0x7fff % 256 = 0 ∧
    (((Memory.fresh zeroRom).writeUint16LE 0x7fff 0xbeef).bind
        (fun m2 => m2.readUint8 0x7fff) = (Memory.fresh zeroRom).readUint8 0x7fff ∧
     ((Memory.fresh zeroRom).writeUint16LE 0x7fff 0xbeef).bind
        (fun m2 => m2.readUint8 0x8000) = .ok 0xbe ∧
     ((Memory.fresh zeroRom).writeUint16LE 0x7fff 0xbeef).bind
        (fun m2 => m2.readUint16LE 0x7fff) = .ok 0xbe00) :=
  ⟨rfl, boundary_write_splits zeroRom rfl⟩

/-- Witness for `step_fails_loudly_with_opcode` at address 0xC000 on the
fresh CPU (the fetched opcode is 0). -/
theorem step_fails_loudly_with_opcode_w :
    cpu0.memory.readUint8 0xc000 = .ok 0 ∧
    cpu0.step 0xc000 =
      .error ("Encountered undefined opcode \x27" ++ toString 0
        ++ "\x27, stopping!") := by
  have h : cpu0.memory.readUint8 0xc000 = .ok 0 := by
    rw [readUint8_ok _ 0xc000 _ _ _ (map_workRam0 0xc000 (by omega) (by omega))]
    rfl
  exact ⟨h, step_fails_loudly_with_opcode cpu0 0xc000 0 h⟩

end CoffeeBoy
